import Mathlib

/-!
Shallow embedding of the statistical reduction core of `validate_drp`:
the multi-visit catalog loader/reducer (`matchreduce.py`) and the TEx
angular-correlation bin selection (`calcsrd/tex.py`).

Numpy floating-point values are modelled by `FP`: a finite rational, NaN,
or a signed infinity.  Comparisons follow IEEE/numpy semantics (every
comparison with NaN is false); `np.median`, `np.mean`/`np.average` and
`np.max` are modelled faithfully over `FP`, including NaN propagation.
-/

namespace ValidateDrp

/-- Model of a numpy float64 value: a finite rational, NaN, +inf or -inf. -/
inductive FP where
  | fin : ℚ → FP
  | nan : FP
  | inf : FP
  | ninf : FP
deriving DecidableEq, Repr

namespace FP

/-- Model of `np.isfinite`: true exactly on finite values. -/
def isFinite : FP → Bool
  | fin _ => true
  | _ => false

/-- Model of `np.isnan`. -/
def isNan : FP → Bool
  | nan => true
  | _ => false

/-- IEEE `<=`: any comparison involving NaN is false. -/
def le : FP → FP → Bool
  | nan, _ => false
  | _, nan => false
  | ninf, _ => true
  | _, inf => true
  | fin a, fin b => a ≤ b
  | fin _, ninf => false
  | inf, _ => false

/-- IEEE `<`: any comparison involving NaN is false; `-inf` is below every
non-NaN value except itself, `+inf` is below nothing, and every finite
value is below `+inf`. -/
def lt : FP → FP → Bool
  | nan, _ => false
  | _, nan => false
  | ninf, ninf => false
  | ninf, _ => true
  | inf, _ => false
  | _, inf => true
  | fin a, fin b => a < b
  | fin _, ninf => false

/-- IEEE `>=`. -/
def ge (a b : FP) : Bool := le b a

/-- IEEE `>`. -/
def gt (a b : FP) : Bool := lt b a

/-- IEEE addition on the modelled values; `inf + (-inf)` is NaN. -/
def add : FP → FP → FP
  | nan, _ => nan
  | _, nan => nan
  | inf, ninf => nan
  | ninf, inf => nan
  | inf, _ => inf
  | _, inf => inf
  | ninf, _ => ninf
  | _, ninf => ninf
  | fin a, fin b => fin (a + b)

/-- Division of a value by a natural count, as it arises in numpy means:
`0.0 / 0` is NaN, `x / 0` for nonzero finite `x` is a signed infinity. -/
def divNat : FP → Nat → FP
  | nan, _ => nan
  | inf, _ => inf
  | ninf, _ => ninf
  | fin a, 0 => if a = 0 then nan else if 0 < a then inf else ninf
  | fin a, Nat.succ n => fin (a / (Nat.succ n : ℚ))

/-- Pairwise maximum as in `np.maximum`: NaN propagates. -/
def max2 : FP → FP → FP
  | nan, _ => nan
  | _, nan => nan
  | inf, _ => inf
  | _, inf => inf
  | ninf, b => b
  | a, ninf => a
  | fin a, fin b => fin (max a b)

/-- Sort order used when modelling `np.sort`/`np.partition` on arrays
without NaN: `-inf < finite < +inf`.  (NaN-containing arrays are handled
separately before sorting.) -/
def sortLe : FP → FP → Bool
  | nan, _ => false
  | _, nan => true
  | ninf, _ => true
  | _, inf => true
  | fin a, fin b => a ≤ b
  | fin _, ninf => false
  | inf, _ => false

end FP

/-- Insertion step of the insertion sort modelling `np.sort`. -/
def insertFP (a : FP) : List FP → List FP
  | [] => [a]
  | b :: l => if FP.sortLe a b then a :: b :: l else b :: insertFP a l

/-- Insertion sort modelling `np.sort` (ascending). -/
def sortFP : List FP → List FP
  | [] => []
  | a :: l => insertFP a (sortFP l)

/-- Model of `np.median`: NaN if any entry is NaN (or the array is empty,
where numpy's mean of an empty slice is NaN); otherwise the middle element
of the sorted array, or the average of the two middle elements. -/
def medianFP (xs : List FP) : FP :=
  if xs.any FP.isNan then FP.nan
  else
    let s := sortFP xs
    let n := s.length
    if n = 0 then FP.nan
    else if n % 2 = 1 then s.getD (n / 2) FP.nan
    else FP.divNat (FP.add (s.getD (n / 2 - 1) FP.nan) (s.getD (n / 2) FP.nan)) 2

/-- Model of `np.mean` / unweighted `np.average`: sum over count. The sum of
an empty array is `0.0`, so the empty mean is `0.0 / 0 =` NaN (numpy emits
only a RuntimeWarning). -/
def meanFP (xs : List FP) : FP :=
  FP.divNat (xs.foldl FP.add (FP.fin 0)) xs.length

/-- Model of `np.max` over a nonempty array: fold of the NaN-propagating
maximum.  (numpy raises on an empty array; the embedding returns NaN there,
and every use below is on a nonempty group.) -/
def maxFP : List FP → FP
  | [] => FP.nan
  | a :: l => l.foldl FP.max2 a

/-- One source record of the extended per-visit catalog built by
`MatchedMultiVisitDataset._loadAndMatchCatalogs`: the minimal-schema fields
used by the reduction (sky position, pixel flags,
`base_ClassificationExtendedness_value`) together with the added output
fields `base_PsfFlux_snr`, `base_PsfFlux_mag`, `base_PsfFlux_magerr`,
`e1`, `e2`, `psf_e1`, `psf_e2`. -/
structure SourceRecord where
  ra : ℚ
  dec : ℚ
  psfSnr : FP
  psfMag : FP
  psfMagErr : FP
  extendedness : FP
  flagSaturated : Bool
  flagCr : Bool
  flagBad : Bool
  flagEdge : Bool
  e1 : FP
  e2 : FP
  psfE1 : FP
  psfE2 : FP
deriving DecidableEq, Repr

/-- One group of the `GroupView`: the records matched to one star. -/
abbrev MatchGroup := List SourceRecord

/-- Embeds `nMatchesRequired = 2` from `_reduceStars`. -/
def nMatchesRequired : Nat := 2

/-- Embeds the closure `goodFilter(cat, goodSnr=3)` of `_reduceStars`
(matchreduce.py lines 314-324): reject groups smaller than
`nMatchesRequired`; reject a group as soon as any member carries one of the
saturated / cr / bad / edge pixel flags; reject if any PSF magnitude is not
finite; finally require the median PSF SNR to be at least `goodSnr`
(a NaN median fails this comparison). -/
def goodFilter (goodSnr : ℚ) (cat : MatchGroup) : Bool :=
  if cat.length < nMatchesRequired then false
  else if cat.any (fun s => s.flagSaturated) then false
  else if cat.any (fun s => s.flagCr) then false
  else if cat.any (fun s => s.flagBad) then false
  else if cat.any (fun s => s.flagEdge) then false
  else if !(cat.all (fun s => (s.psfMag).isFinite)) then false
  else FP.ge (medianFP (cat.map (fun s => s.psfSnr))) (FP.fin goodSnr)

/-- Embeds `safeMaxExtended = 1.0` from `_reduceStars`. -/
def safeMaxExtended : ℚ := 1

/-- Embeds the closure `safeFilter(cat)` of `_reduceStars` (matchreduce.py
lines 332-335): the median PSF SNR must be at least `safeSnr` and the
maximum `base_ClassificationExtendedness_value` strictly below
`safeMaxExtended` (numpy comparisons, so NaN fails both). -/
def safeFilter (safeSnr : ℚ) (cat : MatchGroup) : Bool :=
  FP.ge (medianFP (cat.map (fun s => s.psfSnr))) (FP.fin safeSnr) &&
    FP.lt (maxFP (cat.map (fun s => s.extendedness))) (FP.fin safeMaxExtended)

/-- Result of `_reduceStars`: the five per-group summary-statistic arrays
(one entry per good group, in group order, as produced by
`GroupView.aggregate`) plus the `goodMatches` and `safeMatches` views. -/
structure ReducedStats where
  snr : List FP
  mag : List FP
  magrms : List FP
  magerr : List FP
  dist : List FP
  goodMatches : List MatchGroup
  safeMatches : List MatchGroup
deriving Repr

/-- Embeds `MatchedMultiVisitDataset._reduceStars` (matchreduce.py lines
304-350).  `GroupView.where` is a per-group filter and
`GroupView.aggregate(f, field)` maps `f` over each group's field column.
The two statistics whose values are irrational in general are taken as
parameters: `std` embeds the external `np.std` (square root of the mean
squared deviation) and `posRms` embeds `util.positionRmsFromCat` (per-group
positional RMS in milliarcseconds), which lives outside the embedded
sources. -/
def reduceStars (allMatches : List MatchGroup) (safeSnr : ℚ)
    (std : List FP → FP) (posRms : MatchGroup → FP) : ReducedStats :=
  let goodMatches := allMatches.filter (goodFilter 3)
  let safeMatches := goodMatches.filter (safeFilter safeSnr)
  { snr := goodMatches.map (fun cat => medianFP (cat.map (fun s => s.psfSnr)))
    mag := goodMatches.map (fun cat => meanFP (cat.map (fun s => s.psfMag)))
    magrms := goodMatches.map (fun cat => std (cat.map (fun s => s.psfMag)))
    magerr := goodMatches.map (fun cat => medianFP (cat.map (fun s => s.psfMagErr)))
    dist := goodMatches.map posRms
    goodMatches := goodMatches
    safeMatches := safeMatches }

/-- Comparison operators accepted by `select_bin_from_corr` (the `operator`
module members `le`, `lt`, `ge`, `gt`). -/
inductive CmpOp where
  | le : CmpOp
  | lt : CmpOp
  | ge : CmpOp
  | gt : CmpOp
deriving DecidableEq, Repr

/-- Elementwise application of a comparison operator, as in the vectorized
`operator(r, radius)` of `select_bin_from_corr`. -/
def CmpOp.apply : CmpOp → FP → FP → Bool
  | .le, a, b => FP.le a b
  | .lt, a, b => FP.lt a b
  | .ge, a, b => FP.ge a b
  | .gt, a, b => FP.gt a b

/-- Embeds `select_bin_from_corr(r, xip, xip_err, radius, operator)`
(tex.py lines 225-257): `w, = np.where(operator(r, radius))` selects the
indices whose bin center satisfies the comparison, and the function returns
`(np.average(xip[w]), np.average(xip_err[w]))`. -/
def select_bin_from_corr (r xip xip_err : List FP) (radius : FP)
    (op : CmpOp) : FP × FP :=
  let w := (List.range r.length).filter (fun i => op.apply (r.getD i FP.nan) radius)
  (meanFP (w.map (fun i => xip.getD i FP.nan)),
   meanFP (w.map (fun i => xip_err.getD i FP.nan)))

/-- The exception classes caught by the per-visit loop of
`_loadAndMatchCatalogs` (matchreduce.py lines 220-237): `FitsError`,
`dafPersist.NoResults` and the `TypeError` raised by malformed DECam
headers. -/
inductive LoadError where
  | fitsError : LoadError
  | noResults : LoadError
  | typeError : LoadError
deriving DecidableEq, Repr

/-- Embeds the per-visit loop of
`MatchedMultiVisitDataset._loadAndMatchCatalogs` (matchreduce.py lines
216-281).  `fetch vId` models retrieving the visit's calibrated image and
metadata and extending its source table (all butler/afw work): it either
fails with one of the caught exceptions or yields the visit's extended
records.  On failure the loop prints and `continue`s; on success the
records are appended to the running combined catalog `srcVis`. -/
def loadVisitRecords {α : Type} (fetch : α → Except LoadError (List SourceRecord))
    (dataIds : List α) : List SourceRecord :=
  dataIds.foldl
    (fun srcVis vId =>
      match fetch vId with
      | Except.error _ => srcVis
      | Except.ok tmpCat => srcVis ++ tmpCat)
    []

/-- One butler data ID as used by `MatchedMultiVisitDataset.__init__`: a
visit number, a ccd number and a filter name. -/
structure DataId where
  visit : Nat
  ccd : Nat
  filter : String
deriving DecidableEq, Repr

/-- Model of Python's `set(...).pop()` on a list of strings: an arbitrary
element of the set of distinct values, here taken to be the first distinct
value in list order; `none` models the `KeyError` of popping an empty set. -/
def pySetPop (l : List String) : Option String :=
  l.dedup.head?

/-- Embeds the `filterName` extraction of `MatchedMultiVisitDataset.__init__`
(matchreduce.py lines 116-120):
`set([dId['filter'] for dId in dataIds]).pop()`. -/
def extractFilterName (dataIds : List DataId) : Option String :=
  pySetPop (dataIds.map (fun d => d.filter))

/-- The per-group input columns handed to treecorr by
`correlation_function_ellipticity_from_matches` (tex.py lines 161-165). -/
structure CorrInputs where
  ra : List FP
  dec : List FP
  e1Res : List FP
  e2Res : List FP
deriving Repr

/-- Embeds `correlation_function_ellipticity_from_matches(matches)` up to
the treecorr call (tex.py lines 146-167): each column is the aggregate of a
per-group statistic over `matches`.  The per-group aggregators
(`util.averageRaFromCat`, `util.averageDecFromCat`,
`util.medianEllipticity{1,2}ResidualsFromCat`) live outside the embedded
sources and are taken as parameters. -/
def correlation_function_inputs_from_matches
    (avgRa avgDec medE1Res medE2Res : MatchGroup → FP)
    (ms : List MatchGroup) : CorrInputs :=
  { ra := ms.map avgRa
    dec := ms.map avgDec
    e1Res := ms.map medE1Res
    e2Res := ms.map medE2Res }

/-- Embeds `matches = matchedDataset.safeMatches` from
`TExMeasurement.__init__` (tex.py line 127): the groups whose statistics
feed the correlation function. -/
def texSourceMatches (ds : ReducedStats) : List MatchGroup :=
  ds.safeMatches

/-- Embeds the data fed to the correlation function by
`TExMeasurement.__init__` (tex.py lines 127-130). -/
def texCorrelationInputs (ds : ReducedStats)
    (avgRa avgDec medE1Res medE2Res : MatchGroup → FP) : CorrInputs :=
  correlation_function_inputs_from_matches avgRa avgDec medE1Res medE2Res
    (texSourceMatches ds)

/-- Concrete clean high-SNR point-source record used in witnesses: SNR 100,
finite magnitude, no flags, extendedness 0. -/
def goodRecord : SourceRecord :=
  { ra := 0, dec := 0, psfSnr := FP.fin 100, psfMag := FP.fin 20,
    psfMagErr := FP.fin 1, extendedness := FP.fin 0,
    flagSaturated := false, flagCr := false, flagBad := false,
    flagEdge := false,
    e1 := FP.fin 0, e2 := FP.fin 0, psfE1 := FP.fin 0, psfE2 := FP.fin 0 }

/-- Concrete three-member group of clean records: good and safe. -/
def goodGroup : MatchGroup := [goodRecord, goodRecord, goodRecord]

/-- Concrete clean record with SNR 10: passes the good cut (median SNR ≥ 3)
but fails the safe cut at the default `safeSnr = 50`. -/
def faintRecord : SourceRecord := { goodRecord with psfSnr := FP.fin 10 }

/-- Concrete group that is good but not safe. -/
def faintGroup : MatchGroup := [faintRecord, faintRecord, faintRecord]

/-- Concrete record with a NaN PSF magnitude. -/
def nanMagRecord : SourceRecord := { goodRecord with psfMag := FP.nan }

/-- Concrete group with a non-finite PSF magnitude. -/
def nanMagGroup : MatchGroup := [nanMagRecord, nanMagRecord]

/-- Spec-side membership condition for the *good* view, written from the
spec's words: at least 2 members, no member carrying any of the saturated /
cosmic-ray / bad / edge flags, every member's PSF magnitude finite, and
median PSF SNR at least 3. -/
def GoodSpec (cat : MatchGroup) : Prop :=
  2 ≤ cat.length ∧
    (∀ s ∈ cat, s.flagSaturated = false ∧ s.flagCr = false ∧
      s.flagBad = false ∧ s.flagEdge = false) ∧
    (∀ s ∈ cat, (s.psfMag).isFinite = true) ∧
    FP.ge (medianFP (cat.map (fun s => s.psfSnr))) (FP.fin 3) = true

instance : DecidablePred GoodSpec := fun cat => by
  unfold GoodSpec
  infer_instance

theorem goodFilter_iff_goodSpec (cat : MatchGroup) :
    goodFilter 3 cat = true ↔ GoodSpec cat := by
  unfold goodFilter GoodSpec nMatchesRequired
  split_ifs with h1 h2 h3 h4 h5 h6
  · simp only [false_iff]
    rintro ⟨hlen, -, -, -⟩
    omega
  · simp only [false_iff]
    rintro ⟨-, hflag, -, -⟩
    obtain ⟨s, hs, hsat⟩ := List.any_eq_true.mp h2
    rw [(hflag s hs).1] at hsat
    exact Bool.false_ne_true hsat
  · simp only [false_iff]
    rintro ⟨-, hflag, -, -⟩
    obtain ⟨s, hs, hcr⟩ := List.any_eq_true.mp h3
    rw [(hflag s hs).2.1] at hcr
    exact Bool.false_ne_true hcr
  · simp only [false_iff]
    rintro ⟨-, hflag, -, -⟩
    obtain ⟨s, hs, hbad⟩ := List.any_eq_true.mp h4
    rw [(hflag s hs).2.2.1] at hbad
    exact Bool.false_ne_true hbad
  · simp only [false_iff]
    rintro ⟨-, hflag, -, -⟩
    obtain ⟨s, hs, hedge⟩ := List.any_eq_true.mp h5
    rw [(hflag s hs).2.2.2] at hedge
    exact Bool.false_ne_true hedge
  · simp only [false_iff]
    rintro ⟨-, -, hfin, -⟩
    rw [Bool.not_eq_true', List.all_eq_false] at h6
    obtain ⟨s, hs, hbadmag⟩ := h6
    rw [hfin s hs] at hbadmag
    exact hbadmag rfl
  · constructor
    · intro h
      simp only [List.any_eq_true, not_exists, not_and, Bool.not_eq_true] at h2 h3 h4 h5
      rw [Bool.not_eq_true', Bool.not_eq_false, List.all_eq_true] at h6
      exact ⟨by omega, fun s hs => ⟨h2 s hs, h3 s hs, h4 s hs, h5 s hs⟩, h6, h⟩
    · rintro ⟨-, -, -, h⟩
      exact h

theorem FP.le_nan_right (b : FP) : FP.le b FP.nan = false := by
  cases b <;> rfl

theorem FP.ge_eq_false_of_isNan {a : FP} (b : FP) (h : a.isNan = true) :
    FP.ge a b = false := by
  cases a <;> simp [FP.isNan] at h
  exact FP.le_nan_right b

/-- C3: a match group is in the good view exactly when it has at least 2
members, no member carries a saturated / cosmic-ray / bad / edge flag,
every member's PSF magnitude is finite, and the median PSF SNR is at
least 3. -/
theorem good_membership_iff (allMatches : List MatchGroup) (safeSnr : ℚ)
    (std : List FP → FP) (posRms : MatchGroup → FP) (g : MatchGroup) :
    g ∈ (reduceStars allMatches safeSnr std posRms).goodMatches ↔
      g ∈ allMatches ∧ GoodSpec g := by
  simp only [reduceStars, List.mem_filter, goodFilter_iff_goodSpec]

/-- C4: a match group is in the safe view exactly when it is in the good
view, its median PSF SNR is at least the configurable `safeSnr` threshold,
and the maximum extendedness over its members is strictly below 1.0. -/
theorem safe_membership_iff (allMatches : List MatchGroup) (safeSnr : ℚ)
    (std : List FP → FP) (posRms : MatchGroup → FP) (g : MatchGroup) :
    g ∈ (reduceStars allMatches safeSnr std posRms).safeMatches ↔
      g ∈ (reduceStars allMatches safeSnr std posRms).goodMatches ∧
        FP.ge (medianFP (g.map (fun s => s.psfSnr))) (FP.fin safeSnr) = true ∧
        FP.lt (maxFP (g.map (fun s => s.extendedness))) (FP.fin 1) = true := by
  simp only [reduceStars, List.mem_filter, safeFilter, safeMaxExtended,
    Bool.and_eq_true, and_assoc]

/-- C2: every group of the safe view is in the good view, and every group
of the good view is among the input match groups. -/
theorem safe_subset_good_subset_all (allMatches : List MatchGroup)
    (safeSnr : ℚ) (std : List FP → FP) (posRms : MatchGroup → FP)
    (g : MatchGroup) :
    (g ∈ (reduceStars allMatches safeSnr std posRms).safeMatches →
      g ∈ (reduceStars allMatches safeSnr std posRms).goodMatches) ∧
    (g ∈ (reduceStars allMatches safeSnr std posRms).goodMatches →
      g ∈ allMatches) := by
  constructor
  · intro h
    exact (List.mem_filter.mp h).1
  · intro h
    exact (List.mem_filter.mp h).1

/-- Witness for `safe_subset_good_subset_all` at a concrete dataset with
one clean group. -/
theorem safe_subset_good_subset_all_witness :
    goodGroup ∈ (reduceStars [goodGroup] 50 meanFP
        (fun _ => FP.fin 0)).safeMatches ∧
    goodGroup ∈ (reduceStars [goodGroup] 50 meanFP
        (fun _ => FP.fin 0)).goodMatches ∧
    goodGroup ∈ [goodGroup] := by
  have hsafe : goodGroup ∈ (reduceStars [goodGroup] 50 meanFP
      (fun _ => FP.fin 0)).safeMatches := by decide
  have h := safe_subset_good_subset_all [goodGroup] 50 meanFP
    (fun _ => FP.fin 0) goodGroup
  exact ⟨hsafe, h.1 hsafe, h.2 (h.1 hsafe)⟩

/-- C8: a group containing a non-finite PSF magnitude, or whose median PSF
SNR is NaN, is rejected by the good filtering predicate (which is a total
boolean function, so no exception is possible): the predicate returns
false. -/
theorem goodFilter_false_of_nonfinite_or_nan (cat : MatchGroup)
    (h : (∃ s ∈ cat, (s.psfMag).isFinite = false) ∨
      (medianFP (cat.map (fun s => s.psfSnr))).isNan = true) :
    goodFilter 3 cat = false := by
  unfold goodFilter
  split_ifs with h1 h2 h3 h4 h5 h6
  · rfl
  · rfl
  · rfl
  · rfl
  · rfl
  · rfl
  · rcases h with ⟨s, hs, hbadmag⟩ | hnan
    · rw [Bool.not_eq_true', Bool.not_eq_false, List.all_eq_true] at h6
      rw [h6 s hs] at hbadmag
      exact absurd hbadmag (by simp)
    · exact FP.ge_eq_false_of_isNan _ hnan

/-- Witness for `goodFilter_false_of_nonfinite_or_nan` at a concrete group
with a NaN PSF magnitude. -/
theorem goodFilter_false_of_nonfinite_or_nan_witness :
    ((∃ s ∈ nanMagGroup, (s.psfMag).isFinite = false) ∨
      (medianFP (nanMagGroup.map (fun s => s.psfSnr))).isNan = true) ∧
    goodFilter 3 nanMagGroup = false := by
  refine ⟨Or.inl ?_, goodFilter_false_of_nonfinite_or_nan nanMagGroup
    (Or.inl ?_)⟩ <;> decide

theorem decide_goodSpec_eq_goodFilter (g : MatchGroup) :
    decide (GoodSpec g) = goodFilter 3 g := by
  by_cases h : GoodSpec g
  · simp [h, (goodFilter_iff_goodSpec g).mpr h]
  · have hg : goodFilter 3 g = false := by
      rw [Bool.eq_false_iff]
      intro hT
      exact h ((goodFilter_iff_goodSpec g).mp hT)
    simp [h, hg]

/-- C7: the five summary statistics are aggregated over the good view only:
per-group median PSF SNR, per-group mean PSF magnitude, per-group standard
deviation of PSF magnitude, per-group median PSF magnitude uncertainty and
per-group positional RMS, each mapped over the groups satisfying the good
condition (not the safe view and not all matches). -/
theorem reduceStars_stats_over_good (allMatches : List MatchGroup)
    (safeSnr : ℚ) (std : List FP → FP) (posRms : MatchGroup → FP) :
    (reduceStars allMatches safeSnr std posRms).snr =
      (allMatches.filter (fun g => decide (GoodSpec g))).map
        (fun g => medianFP (g.map (fun s => s.psfSnr))) ∧
    (reduceStars allMatches safeSnr std posRms).mag =
      (allMatches.filter (fun g => decide (GoodSpec g))).map
        (fun g => meanFP (g.map (fun s => s.psfMag))) ∧
    (reduceStars allMatches safeSnr std posRms).magrms =
      (allMatches.filter (fun g => decide (GoodSpec g))).map
        (fun g => std (g.map (fun s => s.psfMag))) ∧
    (reduceStars allMatches safeSnr std posRms).magerr =
      (allMatches.filter (fun g => decide (GoodSpec g))).map
        (fun g => medianFP (g.map (fun s => s.psfMagErr))) ∧
    (reduceStars allMatches safeSnr std posRms).dist =
      (allMatches.filter (fun g => decide (GoodSpec g))).map posRms := by
  have hfilter : allMatches.filter (fun g => decide (GoodSpec g)) =
      allMatches.filter (goodFilter 3) :=
    List.filter_congr (fun g _ => decide_goodSpec_eq_goodFilter g)
  rw [hfilter]
  exact ⟨rfl, rfl, rfl, rfl, rfl⟩

/-- C9: the TEx correlation inputs are the per-group aggregates over the
safe view, so a group that is good but not safe contributes nothing. -/
theorem tex_uses_safe_matches (allMatches : List MatchGroup) (safeSnr : ℚ)
    (std : List FP → FP) (posRms : MatchGroup → FP)
    (avgRa avgDec medE1Res medE2Res : MatchGroup → FP) (g : MatchGroup) :
    (texCorrelationInputs (reduceStars allMatches safeSnr std posRms)
        avgRa avgDec medE1Res medE2Res).ra =
      (reduceStars allMatches safeSnr std posRms).safeMatches.map avgRa ∧
    (texCorrelationInputs (reduceStars allMatches safeSnr std posRms)
        avgRa avgDec medE1Res medE2Res).dec =
      (reduceStars allMatches safeSnr std posRms).safeMatches.map avgDec ∧
    (texCorrelationInputs (reduceStars allMatches safeSnr std posRms)
        avgRa avgDec medE1Res medE2Res).e1Res =
      (reduceStars allMatches safeSnr std posRms).safeMatches.map medE1Res ∧
    (texCorrelationInputs (reduceStars allMatches safeSnr std posRms)
        avgRa avgDec medE1Res medE2Res).e2Res =
      (reduceStars allMatches safeSnr std posRms).safeMatches.map medE2Res ∧
    (g ∈ (reduceStars allMatches safeSnr std posRms).goodMatches →
      safeFilter safeSnr g = false →
      g ∉ texSourceMatches (reduceStars allMatches safeSnr std posRms)) := by
  refine ⟨rfl, rfl, rfl, rfl, ?_⟩
  intro hgood hnotsafe hmem
  have := (List.mem_filter.mp hmem).2
  rw [hnotsafe] at this
  exact absurd this (by simp)

/-- Witness for `tex_uses_safe_matches` at a concrete dataset with one
good-but-not-safe group: its groups feed nothing to the correlation. -/
theorem tex_uses_safe_matches_witness :
    faintGroup ∈ (reduceStars [faintGroup] 50 meanFP
        (fun _ => FP.fin 0)).goodMatches ∧
    safeFilter 50 faintGroup = false ∧
    faintGroup ∉ texSourceMatches (reduceStars [faintGroup] 50 meanFP
        (fun _ => FP.fin 0)) := by
  have hgood : faintGroup ∈ (reduceStars [faintGroup] 50 meanFP
      (fun _ => FP.fin 0)).goodMatches := by decide
  have hnotsafe : safeFilter 50 faintGroup = false := by decide
  exact ⟨hgood, hnotsafe,
    (tex_uses_safe_matches [faintGroup] 50 meanFP (fun _ => FP.fin 0)
      (fun _ => FP.fin 0) (fun _ => FP.fin 0) (fun _ => FP.fin 0)
      (fun _ => FP.fin 0) faintGroup).2.2.2.2 hgood hnotsafe⟩

theorem loadVisitRecords_foldl_acc {α : Type}
    (fetch : α → Except LoadError (List SourceRecord)) :
    ∀ (dataIds : List α) (acc : List SourceRecord),
      dataIds.foldl
          (fun srcVis vId =>
            match fetch vId with
            | Except.error _ => srcVis
            | Except.ok tmpCat => srcVis ++ tmpCat)
          acc =
        acc ++ (dataIds.map (fun v =>
          match fetch v with
          | Except.error _ => []
          | Except.ok tmpCat => tmpCat)).flatten
  | [], acc => by simp
  | vId :: dataIds, acc => by
    simp only [List.foldl_cons, List.map_cons, List.flatten]
    rw [loadVisitRecords_foldl_acc fetch dataIds]
    cases fetch vId <;> simp

/-- C6: a visit whose calibrated image or metadata retrieval fails with one
of the caught errors is skipped entirely and contributes no records, the
loop continues with the remaining visits, and the combined catalog is the
concatenation of the records of exactly the non-failing visits (in visit
order); in particular removing a failing visit from the input list leaves
the result unchanged, so one bad visit never aborts the run. -/
theorem loadVisitRecords_skips_failures {α : Type}
    (fetch : α → Except LoadError (List SourceRecord)) :
    (∀ dataIds : List α,
      loadVisitRecords fetch dataIds =
        (dataIds.map (fun v =>
          match fetch v with
          | Except.error _ => []
          | Except.ok tmpCat => tmpCat)).flatten) ∧
    (∀ (ids₁ ids₂ : List α) (v : α) (e : LoadError),
      fetch v = Except.error e →
        loadVisitRecords fetch (ids₁ ++ v :: ids₂) =
          loadVisitRecords fetch (ids₁ ++ ids₂)) := by
  have hmain : ∀ dataIds : List α,
      loadVisitRecords fetch dataIds =
        (dataIds.map (fun v =>
          match fetch v with
          | Except.error _ => []
          | Except.ok tmpCat => tmpCat)).flatten := by
    intro dataIds
    unfold loadVisitRecords
    rw [loadVisitRecords_foldl_acc fetch dataIds []]
    simp
  refine ⟨hmain, ?_⟩
  intro ids₁ ids₂ v e he
  rw [hmain, hmain]
  simp [he]

/-- Witness for `loadVisitRecords_skips_failures` at a concrete fetch
function whose middle visit fails with a FITS error. -/
theorem loadVisitRecords_skips_failures_witness :
    (fun v : Nat => if v = 1 then (Except.error LoadError.fitsError :
        Except LoadError (List SourceRecord))
      else Except.ok [goodRecord]) 1 = Except.error LoadError.fitsError ∧
    loadVisitRecords
        (fun v : Nat => if v = 1 then (Except.error LoadError.fitsError :
          Except LoadError (List SourceRecord))
        else Except.ok [goodRecord]) ([0] ++ 1 :: [2]) =
      loadVisitRecords
        (fun v : Nat => if v = 1 then (Except.error LoadError.fitsError :
          Except LoadError (List SourceRecord))
        else Except.ok [goodRecord]) ([0] ++ [2]) := by
  refine ⟨rfl, ?_⟩
  exact (loadVisitRecords_skips_failures _).2 [0] [2] 1 LoadError.fitsError rfl

/-- C10: for a non-empty data-ID list the extracted `filterName` is some
element of the set of filter values appearing in the data IDs; no error is
raised even when several distinct filters appear. -/
theorem extractFilterName_mem (dataIds : List DataId)
    (h : dataIds ≠ []) :
    ∃ f, extractFilterName dataIds = some f ∧
      f ∈ dataIds.map (fun d => d.filter) := by
  unfold extractFilterName pySetPop
  have hl : dataIds.map (fun d => d.filter) ≠ [] := by
    simpa using h
  have hd : (dataIds.map (fun d => d.filter)).dedup ≠ [] := by
    simpa [List.dedup_eq_nil] using hl
  obtain ⟨f, t, hft⟩ := List.exists_cons_of_ne_nil hd
  refine ⟨f, by simp [hft], ?_⟩
  have hfmem : f ∈ (dataIds.map (fun d => d.filter)).dedup := by
    simp [hft]
  exact List.mem_dedup.mp hfmem

/-- Witness for `extractFilterName_mem` at a concrete data-ID list spanning
two distinct filters. -/
theorem extractFilterName_mem_witness :
    ([⟨1, 1, "r"⟩, ⟨2, 1, "i"⟩] : List DataId) ≠ [] ∧
    ∃ f, extractFilterName [⟨1, 1, "r"⟩, ⟨2, 1, "i"⟩] = some f ∧
      f ∈ ([⟨1, 1, "r"⟩, ⟨2, 1, "i"⟩] : List DataId).map (fun d => d.filter) := by
  refine ⟨by simp, extractFilterName_mem _ (by simp)⟩

theorem meanFP_nil : meanFP [] = FP.nan := by
  simp [meanFP, FP.divNat]

theorem foldl_add_fin (qs : List ℚ) :
    ∀ q : ℚ, (qs.map FP.fin).foldl FP.add (FP.fin q) = FP.fin (q + qs.sum) := by
  induction qs with
  | nil => intro q; simp
  | cons a qs ih =>
    intro q
    simp only [List.map_cons, List.foldl_cons, FP.add, List.sum_cons]
    rw [ih (q + a)]
    ring_nf

theorem meanFP_map_fin (qs : List ℚ) (h : qs ≠ []) :
    meanFP (qs.map FP.fin) = FP.fin (qs.sum / qs.length) := by
  unfold meanFP
  rw [foldl_add_fin qs 0, List.length_map]
  cases hq : qs.length with
  | zero => exact absurd (List.length_eq_zero.mp hq) h
  | succ n =>
    simp only [FP.divNat, zero_add]

theorem selectIdx_eq_zip (f : FP → Bool) :
    ∀ (r x : List FP), r.length = x.length →
      ((List.range r.length).filter (fun i => f (r.getD i FP.nan))).map
          (fun i => x.getD i FP.nan) =
        ((r.zip x).filter (fun p => f p.1)).map Prod.snd := by
  intro r
  induction r with
  | nil =>
    intro x h
    simp
  | cons a r ih =>
    intro x h
    cases x with
    | nil => simp at h
    | cons b x =>
      have h' : r.length = x.length := by simpa using h
      have hcomp :
          ((fun i => f ((a :: r).getD i FP.nan)) ∘ Nat.succ) =
            (fun i => f (r.getD i FP.nan)) := by
        funext i
        simp
      have hcomp2 :
          ((fun i => (b :: x).getD i FP.nan) ∘ Nat.succ) =
            (fun i => x.getD i FP.nan) := by
        funext i
        simp
      have hstep :
          (List.range (a :: r).length).filter
              (fun i => f ((a :: r).getD i FP.nan)) =
            (if f a = true
              then 0 :: ((List.range r.length).filter
                (fun i => f (r.getD i FP.nan))).map Nat.succ
              else ((List.range r.length).filter
                (fun i => f (r.getD i FP.nan))).map Nat.succ) := by
        rw [List.length_cons, List.range_succ_eq_map, List.filter_cons,
          List.filter_map, hcomp]
        simp
      by_cases hfa : f a = true
      · rw [hstep, if_pos hfa, List.map_cons, List.map_map, hcomp2,
          ih x h', List.zip_cons_cons, List.filter_cons,
          if_pos (show (fun p : FP × FP => f p.1) (a, b) = true from hfa),
          List.map_cons]
        simp
      · rw [hstep, if_neg hfa, List.map_map, hcomp2, ih x h',
          List.zip_cons_cons, List.filter_cons,
          if_neg (show ¬(fun p : FP × FP => f p.1) (a, b) = true from hfa)]

/-- C5: the selection step returns the arithmetic mean of `xip` and of
`xip_err` over exactly those entries whose bin center satisfies
`operator(bin_center, radius)`; on finite values the mean is sum over
count; in particular for bin centers `[0.3, 1.0, 5.0, 15.0]` arcmin with
operator `≤` and radius 1 only the bins at 0.3 and 1.0 are averaged, and
with operator `≥` and radius 5 only the bins at 5.0 and 15.0 are
averaged. -/
theorem select_bin_from_corr_mean :
    (∀ (r xip err : List FP) (radius : FP) (op : CmpOp),
      r.length = xip.length → r.length = err.length →
      select_bin_from_corr r xip err radius op =
        (meanFP (((r.zip xip).filter (fun p => op.apply p.1 radius)).map
            Prod.snd),
         meanFP (((r.zip err).filter (fun p => op.apply p.1 radius)).map
            Prod.snd))) ∧
    (∀ qs : List ℚ, qs ≠ [] →
      meanFP (qs.map FP.fin) = FP.fin (qs.sum / qs.length)) ∧
    (∀ x0 x1 x2 x3 y0 y1 y2 y3 : ℚ,
      select_bin_from_corr
          [FP.fin (3/10), FP.fin 1, FP.fin 5, FP.fin 15]
          [FP.fin x0, FP.fin x1, FP.fin x2, FP.fin x3]
          [FP.fin y0, FP.fin y1, FP.fin y2, FP.fin y3]
          (FP.fin 1) CmpOp.le =
        (FP.fin ((x0 + x1) / 2), FP.fin ((y0 + y1) / 2)) ∧
      select_bin_from_corr
          [FP.fin (3/10), FP.fin 1, FP.fin 5, FP.fin 15]
          [FP.fin x0, FP.fin x1, FP.fin x2, FP.fin x3]
          [FP.fin y0, FP.fin y1, FP.fin y2, FP.fin y3]
          (FP.fin 5) CmpOp.ge =
        (FP.fin ((x2 + x3) / 2), FP.fin ((y2 + y3) / 2))) := by
  refine ⟨?_, meanFP_map_fin, ?_⟩
  · intro r xip err radius op h1 h2
    simp only [select_bin_from_corr]
    rw [selectIdx_eq_zip (fun a => op.apply a radius) r xip h1,
      selectIdx_eq_zip (fun a => op.apply a radius) r err h2]
  · intro x0 x1 x2 x3 y0 y1 y2 y3
    constructor
    · norm_num [select_bin_from_corr, List.range_succ, List.getD,
        List.get?, CmpOp.apply, FP.le, meanFP, FP.add, FP.divNat]
    · norm_num [select_bin_from_corr, List.range_succ, List.getD,
        List.get?, CmpOp.apply, FP.ge, FP.le, meanFP, FP.add, FP.divNat]

/-- Witness for `select_bin_from_corr_mean`: its hypotheses discharged at
the spec's concrete bin centers with operator `≤` and radius 1. -/
theorem select_bin_from_corr_mean_witness :
    (([FP.fin (3/10), FP.fin 1, FP.fin 5, FP.fin 15] : List FP).length =
        ([FP.fin 2, FP.fin 4, FP.fin 6, FP.fin 8] : List FP).length) ∧
    (([1, 3] : List ℚ) ≠ []) ∧
    select_bin_from_corr
        [FP.fin (3/10), FP.fin 1, FP.fin 5, FP.fin 15]
        [FP.fin 2, FP.fin 4, FP.fin 6, FP.fin 8]
        [FP.fin 2, FP.fin 4, FP.fin 6, FP.fin 8]
        (FP.fin 1) CmpOp.le =
      (meanFP ((([FP.fin (3/10), FP.fin 1, FP.fin 5, FP.fin 15].zip
            [FP.fin 2, FP.fin 4, FP.fin 6, FP.fin 8]).filter
          (fun p => CmpOp.le.apply p.1 (FP.fin 1))).map Prod.snd),
       meanFP ((([FP.fin (3/10), FP.fin 1, FP.fin 5, FP.fin 15].zip
            [FP.fin 2, FP.fin 4, FP.fin 6, FP.fin 8]).filter
          (fun p => CmpOp.le.apply p.1 (FP.fin 1))).map Prod.snd)) ∧
    meanFP (([1, 3] : List ℚ).map FP.fin) =
      FP.fin ((([1, 3] : List ℚ).sum) / (([1, 3] : List ℚ).length)) ∧
    select_bin_from_corr
        [FP.fin (3/10), FP.fin 1, FP.fin 5, FP.fin 15]
        [FP.fin 2, FP.fin 4, FP.fin 6, FP.fin 8]
        [FP.fin 2, FP.fin 4, FP.fin 6, FP.fin 8]
        (FP.fin 5) CmpOp.ge =
      (FP.fin ((6 + 8) / 2), FP.fin ((6 + 8) / 2)) := by
  refine ⟨rfl, by simp, ?_, ?_, ?_⟩
  · exact select_bin_from_corr_mean.1
      [FP.fin (3/10), FP.fin 1, FP.fin 5, FP.fin 15]
      [FP.fin 2, FP.fin 4, FP.fin 6, FP.fin 8]
      [FP.fin 2, FP.fin 4, FP.fin 6, FP.fin 8]
      (FP.fin 1) CmpOp.le rfl rfl
  · exact select_bin_from_corr_mean.2.1 [1, 3] (by simp)
  · exact (select_bin_from_corr_mean.2.2 2 4 6 8 2 4 6 8).2

/-- C1 counterexample: at the concrete profile with bin centers 1 and 2
arcmin, operator `≤` and radius 0, no bin satisfies the condition, yet
`select_bin_from_corr` returns a NaN pair (numpy's silent average of an
empty selection) rather than an explicit failure value distinguishable
from a float. -/
theorem select_bin_empty_counterexample :
    (∀ i < ([FP.fin 1, FP.fin 2] : List FP).length,
      CmpOp.le.apply (([FP.fin 1, FP.fin 2] : List FP).getD i FP.nan)
        (FP.fin 0) = false) ∧
    select_bin_from_corr [FP.fin 1, FP.fin 2] [FP.fin 7, FP.fin 8]
        [FP.fin 3, FP.fin 4] (FP.fin 0) CmpOp.le = (FP.nan, FP.nan) := by
  constructor
  · decide
  · decide

/-- C1 (amended): selecting with an operator/radius combination that
matches zero bins silently yields the NaN pair `(NaN, NaN)` — numpy's
average of an empty selection — not an explicit failure result. -/
theorem select_bin_from_corr_empty_nan (r xip err : List FP) (radius : FP)
    (op : CmpOp)
    (h : ∀ i < r.length, op.apply (r.getD i FP.nan) radius = false) :
    select_bin_from_corr r xip err radius op = (FP.nan, FP.nan) := by
  unfold select_bin_from_corr
  have hw : (List.range r.length).filter
      (fun i => op.apply (r.getD i FP.nan) radius) = [] := by
    rw [List.filter_eq_nil_iff]
    intro i hi
    rw [h i (List.mem_range.mp hi)]
    simp
  rw [hw]
  simp [meanFP, FP.divNat]

/-- Witness for `select_bin_from_corr_empty_nan` at a concrete profile
whose selection is empty. -/
theorem select_bin_from_corr_empty_nan_witness :
    (∀ i < ([FP.fin 3, FP.fin 4] : List FP).length,
      CmpOp.gt.apply (([FP.fin 3, FP.fin 4] : List FP).getD i FP.nan)
        (FP.fin 9) = false) ∧
    select_bin_from_corr [FP.fin 3, FP.fin 4] [FP.fin 5, FP.fin 6]
        [FP.fin 7, FP.fin 8] (FP.fin 9) CmpOp.gt = (FP.nan, FP.nan) := by
  refine ⟨by decide, select_bin_from_corr_empty_nan _ _ _ _ _ (by decide)⟩

end ValidateDrp
